import Mathlib

set_option maxRecDepth 16000

namespace Oat

/-!
Shallow embedding of the Oat tracking-pipeline core:
the DifferenceDetector2D position detector
(src/src/positiondetector/DifferenceDetector.cpp), the
BackgroundSubtractor frame filter
(src/src/framefilter/BackgroundSubtractor.cpp), and the run loop of the
stage drivers (src/src/positiondetector/main.cpp and
src/src/positioncombiner/main.cpp).

Images are matrices of natural-number pixel values (8-bit data in the
program); the OpenCV primitives the sources call (cvtColor, absdiff,
threshold, blur, findContours, imread, saturating matrix subtraction)
are given executable definitions that follow their documented behaviour.
-/

/-- A grayscale image: rows of 8-bit pixel values (a CV_8UC1 cv::Mat). -/
abbrev GrayImage := List (List Nat)

/-- A BGR color pixel: the blue, green and red channels of a CV_8UC3 cv::Mat. -/
abbrev BGRPixel := Nat × Nat × Nat

/-- A BGR color image. -/
abbrev BGRImage := List (List BGRPixel)

/-- Pixel access in a grayscale image, 0 outside the stored area. -/
def px (img : GrayImage) (r c : Nat) : Nat := (img.getD r []).getD c 0

/-- Pixel access in a BGR image, the zero pixel outside the stored area. -/
def pxB (img : BGRImage) (r c : Nat) : BGRPixel := (img.getD r []).getD c (0, 0, 0)

/-- Models cv::cvtColor with COLOR_BGR2GRAY on one pixel: the OpenCV fixed
point formula Y = (4899 R + 9617 G + 1868 B + 8192) >> 14. -/
def grayPix (p : BGRPixel) : Nat :=
  (1868 * p.1 + 9617 * p.2.1 + 4899 * p.2.2 + 8192) / 16384

/-- Models cv::cvtColor with COLOR_BGR2GRAY on a whole frame. -/
def grayImg (f : BGRImage) : GrayImage := f.map (List.map grayPix)

/-- Models cv::absdiff on one pair of 8-bit values. -/
def absdiffPix (a b : Nat) : Nat := max a b - min a b

/-- Models cv::absdiff on two frames of equal size (the detector always
compares frames of the one pipeline resolution). -/
def cvAbsdiff (a b : GrayImage) : GrayImage := List.zipWith (List.zipWith absdiffPix) a b

/-- Models cv::threshold with THRESH_BINARY and maxval 255 on one value:
values strictly above the threshold become 255, the rest become 0. -/
def threshFun (t : Int) (v : Nat) : Nat := if t < (v : Int) then 255 else 0

/-- Models cv::threshold with THRESH_BINARY and maxval 255 on a frame. -/
def cvThreshold (t : Int) (img : GrayImage) : GrayImage := img.map (List.map (threshFun t))

/-- Models the BORDER_REFLECT_101 index map used by cv::blur for kernels
that do not exceed the image size; indices reflected beyond the opposite
border are clamped to it. -/
def reflect101 (n : Nat) (i : Int) : Nat :=
  if n ≤ 1 then 0
  else
    let j : Int := if i < 0 then -i else if (n : Int) ≤ i then 2 * ((n : Int) - 1) - i else i
    if j < 0 then 0 else min j.toNat (n - 1)

/-- One output value of the normalized box filter: the mean of the k by k
window whose anchor is the kernel center, rounded to nearest. -/
def blurPx (k : Nat) (img : GrayImage) (nR nC r c : Nat) : Nat :=
  (((Finset.range k).sum fun i =>
      (Finset.range k).sum fun j =>
        px img (reflect101 nR ((r : Int) + (i : Int) - (k : Int) / 2))
               (reflect101 nC ((c : Int) + (j : Int) - (k : Int) / 2)))
    + k * k / 2) / (k * k)

/-- Models cv::blur with a square k by k kernel and the default anchor. -/
def cvBlur (k : Nat) (img : GrayImage) : GrayImage :=
  (List.range img.length).map fun r =>
    (List.range (img.getD r []).length).map fun c =>
      blurPx k img img.length (img.getD r []).length r c

/-- All entries of a grayscale image are 8-bit values. -/
def Valid8 (img : GrayImage) : Prop := ∀ row ∈ img, ∀ v ∈ row, v ≤ 255

/-- All channels of a BGR image are 8-bit values. -/
def Valid8C (f : BGRImage) : Prop :=
  ∀ row ∈ f, ∀ p ∈ row, p.1 ≤ 255 ∧ p.2.1 ≤ 255 ∧ p.2.2 ≤ 255

instance (img : GrayImage) : Decidable (Valid8 img) := by
  unfold Valid8
  infer_instance

instance (f : BGRImage) : Decidable (Valid8C f) := by
  unfold Valid8C
  infer_instance

/-! Basic pixel-level lemmas about the modelled OpenCV primitives. -/

theorem px_mapmap (f : Nat → Nat) (h0 : f 0 = 0) (img : GrayImage) (r c : Nat) :
    px (img.map (List.map f)) r c = f (px img r c) := by
  simp only [px, List.getD_eq_getElem?_getD, List.getElem?_map]
  cases h : img[r]? with
  | none => simp [h, h0]
  | some row =>
    simp only [h, Option.map_some', Option.getD_some, List.getElem?_map]
    cases hc : row[c]? with
    | none => simp [hc, h0]
    | some v => simp [hc]

theorem px_cvThreshold (t : Int) (h0 : 0 ≤ t) (img : GrayImage) (r c : Nat) :
    px (cvThreshold t img) r c = threshFun t (px img r c) := by
  apply px_mapmap
  simp only [threshFun, Nat.cast_zero]
  rw [if_neg (by omega : ¬ t < (0 : Int))]

theorem threshFun_antitone {t1 t2 : Int} (h : t1 ≤ t2) (v : Nat) :
    threshFun t2 v ≤ threshFun t1 v := by
  simp only [threshFun]
  split <;> split <;> omega

theorem threshFun_le_255 (t : Int) (v : Nat) : threshFun t v ≤ 255 := by
  simp only [threshFun]; split <;> omega

/-- Row access through a row-wise map (the mapped default is again the
default row, since the maps used send the empty row to the empty row). -/
theorem getD_map_rows (g : List Nat → List Nat) (hg : g [] = []) (img : GrayImage) (r : Nat) :
    (img.map g).getD r [] = g (img.getD r []) := by
  rw [List.getD_eq_getElem?_getD, List.getD_eq_getElem?_getD, List.getElem?_map]
  cases h : img[r]? with
  | none => simp [hg]
  | some row => simp

theorem getD_map_range {α : Type} (f : Nat → α) (R r : Nat) (d : α) (h : r < R) :
    ((List.range R).map f).getD r d = f r := by
  rw [List.getD_eq_getElem?_getD, List.getElem?_map, List.getElem?_range h]
  rfl

theorem getD_map_range_ge {α : Type} (f : Nat → α) (R r : Nat) (d : α) (h : R ≤ r) :
    ((List.range R).map f).getD r d = d := by
  rw [List.getD_eq_getElem?_getD, List.getElem?_map, List.getElem?_eq_none]
  · rfl
  · simpa using h

theorem length_cvThreshold (t : Int) (img : GrayImage) :
    (cvThreshold t img).length = img.length := by
  simp [cvThreshold]

theorem rows_cvThreshold (t : Int) (img : GrayImage) (r : Nat) :
    (cvThreshold t img).getD r [] = List.map (threshFun t) (img.getD r []) := by
  exact getD_map_rows (List.map (threshFun t)) rfl img r

theorem px_cvBlur_lt (k : Nat) (img : GrayImage) (r c : Nat)
    (hr : r < img.length) (hc : c < (img.getD r []).length) :
    px (cvBlur k img) r c = blurPx k img img.length (img.getD r []).length r c := by
  unfold cvBlur px
  rw [getD_map_range _ _ _ _ hr, getD_map_range _ _ _ _ hc]

theorem px_cvBlur_row_ge (k : Nat) (img : GrayImage) (r c : Nat)
    (hr : img.length ≤ r) : px (cvBlur k img) r c = 0 := by
  unfold cvBlur px
  rw [getD_map_range_ge _ _ _ _ hr]
  simp

theorem px_cvBlur_col_ge (k : Nat) (img : GrayImage) (r c : Nat)
    (hc : (img.getD r []).length ≤ c) : px (cvBlur k img) r c = 0 := by
  unfold cvBlur px
  by_cases hr : r < img.length
  · rw [getD_map_range _ _ _ _ hr, getD_map_range_ge _ _ _ _ hc]
  · rw [getD_map_range_ge _ _ _ _ (Nat.le_of_not_lt hr)]; simp

/-- The box filter is pointwise monotone on images of one shape. -/
theorem cvBlur_mono (k : Nat) (a b : GrayImage)
    (h1 : a.length = b.length)
    (h2 : ∀ r, (a.getD r []).length = (b.getD r []).length)
    (hle : ∀ r c, px a r c ≤ px b r c) (r c : Nat) :
    px (cvBlur k a) r c ≤ px (cvBlur k b) r c := by
  by_cases hr : r < a.length
  · by_cases hc : c < (a.getD r []).length
    · rw [px_cvBlur_lt k a r c hr hc,
        px_cvBlur_lt k b r c (h1 ▸ hr) (h2 r ▸ hc), ← h1, ← h2 r]
      unfold blurPx
      apply Nat.div_le_div_right
      apply Nat.add_le_add_right
      apply Finset.sum_le_sum
      intro i _
      apply Finset.sum_le_sum
      intro j _
      exact hle _ _
    · rw [px_cvBlur_col_ge k a r c (Nat.le_of_not_lt hc)]
      exact Nat.zero_le _
  · rw [px_cvBlur_row_ge k a r c (Nat.le_of_not_lt hr)]
    exact Nat.zero_le _

/-! Entry-bound lemmas used to relate the double threshold in the source to
the single conditional re-threshold described by the spec. -/

theorem mem_zipWith_imp {α β γ : Type} (g : α → β → γ) :
    ∀ {a : List α} {b : List β} {x : γ}, x ∈ List.zipWith g a b →
      ∃ u, u ∈ a ∧ ∃ v, v ∈ b ∧ x = g u v := by
  intro a
  induction a with
  | nil => intro b x h; simp at h
  | cons u us ih =>
    intro b x h
    cases b with
    | nil => simp at h
    | cons v vs =>
      simp only [List.zipWith_cons_cons, List.mem_cons] at h
      rcases h with h | h
      · exact ⟨u, by simp, v, by simp, h⟩
      · rcases ih h with ⟨u', hu, v', hv, hx⟩
        exact ⟨u', by simp [hu], v', by simp [hv], hx⟩

theorem valid8_grayImg {f : BGRImage} (hf : Valid8C f) : Valid8 (grayImg f) := by
  intro row hrow v hv
  simp only [grayImg, List.mem_map] at hrow
  rcases hrow with ⟨row0, hrow0, rfl⟩
  simp only [List.mem_map] at hv
  rcases hv with ⟨p, hp, rfl⟩
  rcases hf row0 hrow0 p hp with ⟨hb, hg, hr⟩
  unfold grayPix
  calc (1868 * p.1 + 9617 * p.2.1 + 4899 * p.2.2 + 8192) / 16384
      ≤ (1868 * 255 + 9617 * 255 + 4899 * 255 + 8192) / 16384 := by
        apply Nat.div_le_div_right
        have := Nat.mul_le_mul_left 1868 hb
        have := Nat.mul_le_mul_left 9617 hg
        have := Nat.mul_le_mul_left 4899 hr
        omega
    _ = 255 := by norm_num

theorem valid8_cvAbsdiff {a b : GrayImage} (ha : Valid8 a) (hb : Valid8 b) :
    Valid8 (cvAbsdiff a b) := by
  intro row hrow v hv
  rcases mem_zipWith_imp _ hrow with ⟨ra, hra, rb, hrb, rfl⟩
  rcases mem_zipWith_imp _ hv with ⟨u, hu, w, hw, rfl⟩
  have h1 := ha ra hra u hu
  have h2 := hb rb hrb w hw
  unfold absdiffPix
  omega

/-- Thresholding twice at one cutoff is thresholding once, on 8-bit data.
This is what makes the unconditional second cv::threshold call in
DifferenceDetector2D::applyThreshold a no-op when blur is disabled. -/
theorem cvThreshold_idem (t : Int) (img : GrayImage) (hb : Valid8 img) :
    cvThreshold t (cvThreshold t img) = cvThreshold t img := by
  unfold cvThreshold
  rw [List.map_map]
  apply List.map_congr_left
  intro row hrow
  simp only [Function.comp_apply]
  rw [List.map_map]
  apply List.map_congr_left
  intro v hv
  have hv255 := hb row hrow v hv
  simp only [Function.comp_apply, threshFun]
  split
  · rename_i h
    have : t < (255 : Int) := by
      have : (v : Int) ≤ 255 := by exact_mod_cast hv255
      omega
    simp [this]
  · rename_i h
    have : ¬ t < ((0 : Nat) : Int) := by
      have : (0 : Int) ≤ (v : Int) := by positivity
      omega
    simp only [this, if_false]

/-! The shared position datatype (lib/datatypes/Position2D.h): a 2D
coordinate estimate with an explicit validity flag.  The nested cv point is
flattened into the two coordinate fields. -/

/-- A 2D position estimate; x and y carry no meaning when the validity flag
is false. -/
structure Position2D where
  x : ℚ
  y : ℚ
  position_valid : Bool
deriving DecidableEq

/-- An integer rectangle as produced by cv::boundingRect. -/
structure CvRect where
  x : Nat
  y : Nat
  w : Nat
  h : Nat
deriving DecidableEq

/-- Minimum of a list of naturals (callers pass nonempty lists). -/
def minL : List Nat → Nat
  | [] => 0
  | v :: vs => vs.foldl Nat.min v

/-- Maximum of a list of naturals (callers pass nonempty lists). -/
def maxL : List Nat → Nat
  | [] => 0
  | v :: vs => vs.foldl Nat.max v

/-- Models cv::boundingRect of a set of integer points given as (x, y)
pairs: the minimal up-right rectangle containing them. -/
def boundingRect (pts : List (Nat × Nat)) : CvRect :=
  let xs := pts.map Prod.fst
  let ys := pts.map Prod.snd
  { x := minL xs, y := minL ys, w := maxL xs - minL xs + 1, h := maxL ys - minL ys + 1 }

/-- Horizontal center of a bounding rectangle, x + 0.5 * width as in
DifferenceDetector2D::siftBlobs. -/
def rectCenterX (rect : CvRect) : ℚ := (rect.x : ℚ) + (rect.w : ℚ) / 2

/-- Vertical center of a bounding rectangle, y + 0.5 * height as in
DifferenceDetector2D::siftBlobs. -/
def rectCenterY (rect : CvRect) : ℚ := (rect.y : ℚ) + (rect.h : ℚ) / 2

/-! A model of cv::findContours with RETR_EXTERNAL: one outer contour per
8-connected component of nonzero pixels, discovered in raster-scan order
(the order the C API encounters the components, which is the order the
source relies on when it picks the final list element).  A contour is
represented by the full pixel set of its component, whose bounding
rectangle coincides with that of the traced border; nested components
(a blob inside a hole of another) do not occur in the binary masks the
claims evaluate. -/

/-- Nonzero test for the scan at a (row, column) coordinate. -/
def nzAt (img : GrayImage) (p : Nat × Nat) : Bool := px img p.1 p.2 != 0

/-- The eight neighbours of a cell, dropping those above or left of the
image origin; cells beyond the lower or right border read as zero. -/
def nbrs (r c : Nat) : List (Nat × Nat) :=
  ([(-1, -1), (-1, 0), (-1, 1), (0, -1), (0, 1), (1, -1), (1, 0), (1, 1)] :
      List (Int × Int)).filterMap fun d =>
    let r2 : Int := (r : Int) + d.1
    let c2 : Int := (c : Int) + d.2
    if r2 < 0 || c2 < 0 then none else some (r2.toNat, c2.toNat)

/-- Fuel-bounded flood fill collecting one 8-connected nonzero component. -/
def flood (img : GrayImage) : Nat → List (Nat × Nat) → List (Nat × Nat) → List (Nat × Nat)
  | 0, _, acc => acc
  | _ + 1, [], acc => acc
  | fuel + 1, p :: rest, acc =>
    if acc.contains p || !nzAt img p then flood img fuel rest acc
    else flood img fuel (nbrs p.1 p.2 ++ rest) (acc ++ [p])

/-- Number of stored cells of an image, used to bound the flood fill. -/
def totalCells (img : GrayImage) : Nat := (img.map List.length).sum

/-- All (row, column) coordinates of an image in raster-scan order. -/
def coords (img : GrayImage) : List (Nat × Nat) :=
  (List.range img.length).flatMap fun r =>
    (List.range (img.getD r []).length).map fun c => (r, c)

/-- One step of the raster scan: a nonzero cell not yet assigned to a
component starts a flood fill; its component is appended to the output
list (as cv points, x before y) and its cells are marked assigned. -/
def contourScanStep (img : GrayImage) (fuel : Nat)
    (st : List (List (Nat × Nat)) × List (Nat × Nat)) (p : Nat × Nat) :
    List (List (Nat × Nat)) × List (Nat × Nat) :=
  if nzAt img p && !st.2.contains p then
    let comp := flood img fuel [p] []
    (st.1 ++ [comp.map fun q => (q.2, q.1)], st.2 ++ comp)
  else st

/-- The external contours of a binary image in discovery order. -/
def externalContours (img : GrayImage) : List (List (Nat × Nat)) :=
  ((coords img).foldl (contourScanStep img (9 * totalCells img + 9)) ([], [])).1

/-! DifferenceDetector2D (src/src/positiondetector/DifferenceDetector.cpp).
The structure holds the members the algorithm reads and writes; the
transient this_image header alias and the tuning-window bookkeeping of the
out-of-scope interactive path are not part of the model, and the square
cv::Size(value, value) blur kernel is kept as its side length.  tune() and
the tuning drawing in siftBlobs only act when tuning is on; the pipeline
claims run with tuning off, so they are omitted. -/

/-- The mutable state of a DifferenceDetector2D stage. -/
structure DifferenceDetector2D where
  last_image : GrayImage
  last_image_set : Bool
  threshold_image : GrayImage
  object_position : Position2D
  blur_on : Bool
  blur_size : Int
  difference_intensity_threshold : Int
  tuning_on : Bool
deriving DecidableEq

namespace DifferenceDetector2D

/-- Translation of DifferenceDetector2D::set_blur_size: a positive value
enables blur with a value by value kernel; otherwise blur is disabled and
the stored kernel size is left as it was. -/
def set_blur_size (value : Int) (s : DifferenceDetector2D) : DifferenceDetector2D :=
  if 0 < value then { s with blur_on := true, blur_size := value }
  else { s with blur_on := false }

/-- State after the constructor: no history, tuning off, and the
set_blur_size 2 call from the constructor body.  Members whose initial
values come from the class declaration (in DifferenceDetector.h, which is
not among the sources) are given neutral defaults no claim depends on:
threshold 0, an invalid zero position, empty image buffers. -/
def init : DifferenceDetector2D :=
  set_blur_size 2
    { last_image := [], last_image_set := false, threshold_image := [],
      object_position := { x := 0, y := 0, position_valid := false },
      blur_on := false, blur_size := 0,
      difference_intensity_threshold := 0, tuning_on := false }

/-- Translation of DifferenceDetector2D::applyThreshold.  With history
available: grayscale conversion, absolute difference against the history,
binary threshold, a blur pass when enabled, an unconditional second binary
threshold, then the history is replaced by the current grayscale frame.
Without history: the grayscale frame is stored both as the threshold image
and as the history, and the history flag is set. -/
def applyThreshold (s : DifferenceDetector2D) (f : BGRImage) : DifferenceDetector2D :=
  if s.last_image_set then
    let g := grayImg f
    let d := cvAbsdiff g s.last_image
    let t1 := cvThreshold s.difference_intensity_threshold d
    let t2 := if s.blur_on then cvBlur s.blur_size.toNat t1 else t1
    let t3 := cvThreshold s.difference_intensity_threshold t2
    { s with threshold_image := t3, last_image := g }
  else
    let g := grayImg f
    { s with threshold_image := g, last_image := g, last_image_set := true }

/-- Translation of DifferenceDetector2D::siftBlobs: external contours of
the threshold image; when none exist only the validity flag is cleared,
otherwise the position becomes the bounding-rectangle center of the
contour at the end of the contour list. -/
def siftBlobs (s : DifferenceDetector2D) : DifferenceDetector2D :=
  let contours := externalContours s.threshold_image
  if contours.isEmpty then
    { s with object_position := { s.object_position with position_valid := false } }
  else
    let rect := boundingRect (contours.getLastD [])
    { s with object_position :=
        { x := rectCenterX rect, y := rectCenterY rect, position_valid := true } }

/-- Translation of DifferenceDetector2D::detectPosition: applyThreshold,
siftBlobs, then the (tuning-off) tune no-op; returns the stored object
position together with the updated state. -/
def detectPosition (s : DifferenceDetector2D) (f : BGRImage) :
    Position2D × DifferenceDetector2D :=
  let s1 := siftBlobs (applyThreshold s f)
  (s1.object_position, s1)

/-- The settings table the configure translation consumes: the recognized
keys of the detector, each optional, with integer entries holding plain
scalar values (for which the is_value test of the source is true). -/
structure Config where
  blur : Option Int
  diff_threshold : Option Int
  tune : Option Bool

/-- The blur block of DifferenceDetector2D::configure: a present blur
entry goes through set_blur_size, after which a negative stored kernel
height is fatal (the entry itself being a scalar integer, the is_value
half of the disjunction in the source test is false here). -/
def configureBlur (c : Config) (s : DifferenceDetector2D) :
    Except Unit DifferenceDetector2D :=
  match c.blur with
  | some v =>
    let s1 := set_blur_size v s
    if s1.blur_size < 0 then Except.error () else Except.ok s1
  | none => Except.ok s

/-- The diff_threshold block of DifferenceDetector2D::configure: a present
entry is stored, after which a negative stored threshold is fatal. -/
def configureDiff (c : Config) (s : DifferenceDetector2D) :
    Except Unit DifferenceDetector2D :=
  match c.diff_threshold with
  | some t =>
    let s2 := { s with difference_intensity_threshold := t }
    if s2.difference_intensity_threshold < 0 then Except.error () else Except.ok s2
  | none => Except.ok s

/-- The tune block of DifferenceDetector2D::configure: a true tune entry
turns tuning on (the window creation of the out-of-scope interactive path
is omitted). -/
def configureTune (c : Config) (s : DifferenceDetector2D) : DifferenceDetector2D :=
  match c.tune with
  | some true => { s with tuning_on := true }
  | _ => s

/-- Translation of DifferenceDetector2D::configure given the parsed table
for the configure key (none when the file has no table of that name, which
is fatal): the blur, diff_threshold and tune blocks in source order. -/
def configure (cfg : Option Config) (s : DifferenceDetector2D) :
    Except Unit DifferenceDetector2D :=
  match cfg with
  | none => Except.error ()
  | some c =>
    match configureBlur c s with
    | Except.error e => Except.error e
    | Except.ok s1 =>
      match configureDiff c s1 with
      | Except.error e => Except.error e
      | Except.ok s2 => Except.ok (configureTune c s2)

end DifferenceDetector2D

/-! BackgroundSubtractor (src/src/framefilter/BackgroundSubtractor.cpp). -/

/-- Per-channel subtraction of two BGR pixels with the saturate_cast
clamping of the cv::Mat subtraction: natural-number subtraction truncates
at zero exactly like the clamp at the bottom of the 8-bit range, and the
result never exceeds the minuend, so the top clamp is never active and no
wrap-around can occur. -/
def subPix (p q : BGRPixel) : BGRPixel := (p.1 - q.1, p.2.1 - q.2.1, p.2.2 - q.2.2)

/-- Saturating per-pixel difference of two frames of one size. -/
def cvSubtract (a b : BGRImage) : BGRImage := List.zipWith (List.zipWith subPix) a b

/-- Size agreement of two frames, the precondition of the cv::Mat
subtraction; on disagreement the subtraction throws cv::Exception. -/
def sameDims (a b : BGRImage) : Bool :=
  a.length == b.length &&
    (List.range a.length).all fun r => (a.getD r []).length == (b.getD r []).length

/-- Models cv::imread: the decoded image when the file can be read, and an
EMPTY matrix (not an exception) when it cannot; OpenCV documents that
imread reports failure through the empty return, so the catch block around
the call in BackgroundSubtractor::configure never fires on a load failure. -/
def cvImread (loaded : Option BGRImage) : BGRImage := loaded.getD []

/-- The mutable state of a BackgroundSubtractor stage. -/
structure BackgroundSubtractor where
  background_img : BGRImage
  background_set : Bool
deriving DecidableEq

namespace BackgroundSubtractor

/-- Translation of BackgroundSubtractor::setBackgroundImage: store a copy
of the frame and mark the background set. -/
def setBackgroundImage (s : BackgroundSubtractor) (frame : BGRImage) : BackgroundSubtractor :=
  { s with background_img := frame, background_set := true }

/-- Translation of BackgroundSubtractor::filter: with a background set the
output is the saturating difference frame minus background (on a size
mismatch the cv::Exception is caught and the frame passes unchanged);
without one the frame becomes the background and passes unchanged. -/
def filter (s : BackgroundSubtractor) (frame : BGRImage) :
    BGRImage × BackgroundSubtractor :=
  if s.background_set then
    if sameDims frame s.background_img then (cvSubtract frame s.background_img, s)
    else (frame, s)
  else (frame, setBackgroundImage s frame)

/-- Translation of BackgroundSubtractor::configure, given whether the
parsed file contains a table for the configure key and the result of
decoding the configured background path (none when the file cannot be
read, including the empty path used when the background key is absent).
A missing table exits the process, modelled as an error; otherwise the
imread result, empty or not, is installed and background_set is raised. -/
def configure (tablePresent : Bool) (loaded : Option BGRImage)
    (s : BackgroundSubtractor) : Except Unit BackgroundSubtractor :=
  if tablePresent then
    Except.ok { s with background_img := cvImread loaded, background_set := true }
  else Except.error ()

end BackgroundSubtractor

/-! The run loop shared by the stage drivers
(src/src/positiondetector/main.cpp lines 57 to 62, identical in
src/src/positioncombiner/main.cpp): while neither the quit flag nor the
source_eof flag is raised, one process call runs and its return value
becomes source_eof.  The quit flag is written by the signal handler and
read once per loop entry, modelled as a function of the iteration index;
the successive process return values are a list; the result counts the
iterations performed. -/

/-- Translation of the run driver: iterations performed before the loop
exits. -/
def run (quit : Nat → Bool) : List Bool → Nat → Nat
  | [], _ => 0
  | eof :: rest, i => if quit i then 0 else 1 + (if eof then 0 else run quit rest (i + 1))

/-! Failure model for one detection iteration.  The OpenCV calls inside
DifferenceDetector2D::detectPosition can raise cv::Exception; the fault
parameter names the call that fails in a given iteration (or names no
call).  The state threading mirrors the member writes of the source, so a
fault leaves exactly the members written before the failing call
modified.  In the no-history branch only a failure of the first
conversion, before any member write, is modelled. -/

/-- Which OpenCV call of the iteration fails, if any. -/
inductive CvFault where
  | fNone
  | fCvtColor
  | fAbsdiff
  | fThresh1
  | fBlur
  | fThresh2
  | fFindContours
deriving DecidableEq

namespace DifferenceDetector2D

/-- Translation of applyThreshold with fault injection: false in the first
component reports that the named call raised, and the returned state holds
the member writes made before it. -/
def applyThresholdF (fl : CvFault) (s : DifferenceDetector2D) (f : BGRImage) :
    Bool × DifferenceDetector2D :=
  if s.last_image_set then
    if fl = CvFault.fCvtColor then (false, s)
    else
      let g := grayImg f
      if fl = CvFault.fAbsdiff then (false, s)
      else
        let s1 := { s with threshold_image := cvAbsdiff g s.last_image }
        if fl = CvFault.fThresh1 then (false, s1)
        else
          let t1 := cvThreshold s1.difference_intensity_threshold s1.threshold_image
          let s2 := { s1 with threshold_image := t1 }
          if s2.blur_on = true ∧ fl = CvFault.fBlur then (false, s2)
          else
            let s3 := if s2.blur_on then
              { s2 with threshold_image := cvBlur s2.blur_size.toNat s2.threshold_image }
              else s2
            if fl = CvFault.fThresh2 then (false, s3)
            else
              let t3 := cvThreshold s3.difference_intensity_threshold s3.threshold_image
              let s4 := { s3 with threshold_image := t3 }
              (true, { s4 with last_image := g })
  else
    if fl = CvFault.fNone then
      let g := grayImg f
      (true, { s with threshold_image := g, last_image := g, last_image_set := true })
    else (false, s)

/-- Translation of detectPosition with fault injection: none in the first
component reports a raised cv::Exception; the contour sift runs only when
applyThreshold completed and the contour call itself does not fail. -/
def detectPositionF (fl : CvFault) (s : DifferenceDetector2D) (f : BGRImage) :
    Option Position2D × DifferenceDetector2D :=
  match applyThresholdF fl s f with
  | (false, s1) => (none, s1)
  | (true, s1) =>
    if fl = CvFault.fFindContours then (none, s1)
    else
      let s2 := siftBlobs s1
      (some s2.object_position, s2)

/-- Modelled from the spec: the per-iteration driver Detector2D::process is
declared in Detector2D.h, which is not among the sources here; per the
stage contract it acquires one frame, calls detectPosition and publishes
the result, and per the failure semantics of the spec a mid-iteration
image-processing failure is caught at the call site, the previously
published position stays the output of the tick, and the failure is not a
source-exhaustion signal, so the loop continues (the third component is
the source_eof value handed to the run loop). -/
def processModel (fl : CvFault) (s : DifferenceDetector2D) (f : BGRImage) :
    DifferenceDetector2D × Position2D × Bool :=
  match detectPositionF fl s f with
  | (some p, s1) => (s1, p, false)
  | (none, s1) => (s1, s.object_position, false)

/-- Definition written from the spec wording of the per-invocation steps
(grayscale conversion, absolute difference against the history, one binary
threshold, and, only when blur is enabled, a smoothing pass followed by
one reapplication of the same threshold), to be compared with the source
translation applyThreshold, which always thresholds twice. -/
def specDetectMask (s : DifferenceDetector2D) (f : BGRImage) : GrayImage :=
  let d := cvAbsdiff (grayImg f) s.last_image
  let m := cvThreshold s.difference_intensity_threshold d
  if s.blur_on then cvThreshold s.difference_intensity_threshold (cvBlur s.blur_size.toNat m)
  else m

end DifferenceDetector2D

/-! Helper lemmas about the contour scan and the saturating subtraction. -/

theorem mem_of_getElem?_some {α : Type} {l : List α} {n : Nat} {a : α}
    (h : l[n]? = some a) : a ∈ l := by
  rcases List.getElem?_eq_some_iff.mp h with ⟨hlt, rfl⟩
  exact List.getElem_mem hlt

theorem px_eq_zero_of_allZero {img : GrayImage}
    (h : ∀ row ∈ img, ∀ v ∈ row, v = 0) (r c : Nat) : px img r c = 0 := by
  unfold px
  by_cases hr : r < img.length
  · have hrow : img.getD r [] ∈ img := by
      rw [List.getD_eq_getElem _ _ hr]
      exact List.getElem_mem hr
    by_cases hc : c < (img.getD r []).length
    · have hv : (img.getD r []).getD c 0 ∈ img.getD r [] := by
        rw [List.getD_eq_getElem _ _ hc]
        exact List.getElem_mem hc
      exact h _ hrow _ hv
    · rw [List.getD_eq_default _ _ (Nat.le_of_not_lt hc)]
  · rw [List.getD_eq_default _ _ (Nat.le_of_not_lt hr)]
    rfl

/-- On an all-zero image the raster scan never starts a component, so the
contour list is empty. -/
theorem externalContours_of_allZero {img : GrayImage}
    (h : ∀ row ∈ img, ∀ v ∈ row, v = 0) : externalContours img = [] := by
  have hnz : ∀ p : Nat × Nat, nzAt img p = false := by
    intro p
    simp [nzAt, px_eq_zero_of_allZero h]
  have hstep : ∀ fuel st p, contourScanStep img fuel st p = st := by
    intro fuel st p
    simp [contourScanStep, hnz p]
  have hfold : ∀ (l : List (Nat × Nat)) st,
      l.foldl (contourScanStep img (9 * totalCells img + 9)) st = st := by
    intro l
    induction l with
    | nil => intro st; rfl
    | cons p ps ih =>
      intro st
      rw [List.foldl_cons, hstep _ st p]
      exact ih st
  unfold externalContours
  rw [hfold]

theorem getD_zipWith {α β γ : Type} (g : α → β → γ) :
    ∀ (a : List α) (b : List β) (r : Nat) (da : α) (db : β) (dc : γ),
      r < a.length → r < b.length →
      (List.zipWith g a b).getD r dc = g (a.getD r da) (b.getD r db) := by
  intro a
  induction a with
  | nil => intro b r da db dc ha _; simp at ha
  | cons u us ih =>
    intro b r da db dc ha hb
    cases b with
    | nil => simp at hb
    | cons v vs =>
      cases r with
      | zero => rfl
      | succ n =>
        simp only [List.zipWith_cons_cons]
        have ha2 : n < us.length := by simpa using ha
        have hb2 : n < vs.length := by simpa using hb
        exact ih vs n da db dc ha2 hb2

theorem sameDims_spec {a b : BGRImage} (h : sameDims a b = true) :
    a.length = b.length ∧ ∀ r < a.length, (a.getD r []).length = (b.getD r []).length := by
  simp only [sameDims, Bool.and_eq_true, beq_iff_eq, List.all_eq_true, List.mem_range] at h
  exact ⟨h.1, fun r hr => h.2 r hr⟩

theorem sameDims_self (a : BGRImage) : sameDims a a = true := by
  simp [sameDims]

theorem zipWith_subPix_self_zero :
    ∀ (row : List BGRPixel) (p : BGRPixel), p ∈ List.zipWith subPix row row → p = (0, 0, 0) := by
  intro row
  induction row with
  | nil => intro p hp; simp at hp
  | cons q qs ih =>
    intro p hp
    simp only [List.zipWith_cons_cons, List.mem_cons] at hp
    rcases hp with hp | hp
    · subst hp; simp [subPix]
    · exact ih p hp

theorem cvSubtract_self_zero (b : BGRImage) :
    ∀ row ∈ cvSubtract b b, ∀ p ∈ row, p = (0, 0, 0) := by
  induction b with
  | nil => intro row hrow; simp [cvSubtract] at hrow
  | cons r rs ih =>
    intro row hrow p hp
    simp only [cvSubtract, List.zipWith_cons_cons, List.mem_cons] at hrow
    rcases hrow with hrow | hrow
    · subst hrow; exact zipWith_subPix_self_zero r p hp
    · exact ih row hrow p hp

/-! Claim C9.  The run loop repeats the per-iteration process call until
the cancellation flag is observed (only between iterations) or the call
reports source exhaustion; a source exhausted on its 5th acquisition gives
exactly 5 iterations with no cancellation. -/

/-- Claim C9: the run loop performs exactly 5 iterations when the 5th
process call reports exhaustion and the quit flag is never raised;
a call reporting exhaustion ends the loop right after that iteration; and
a quit flag observed at a loop entry stops the loop before the next
iteration. -/
theorem C9_run_loop_exhaustion :
    (run (fun _ => false) [false, false, false, false, true] 0 = 5) ∧
    (∀ q rest i, run q (true :: rest) i = if q i then 0 else 1) ∧
    (∀ q res i, q i = true → run q res i = 0) := by
  refine ⟨by decide, ?_, ?_⟩
  · intro q rest i
    by_cases h : q i <;> simp [run, h]
  · intro q res i h
    cases res <;> simp [run, h]

/-- Witness for C9: the cancellation clause evaluated with the flag raised
at the first loop entry. -/
theorem C9_run_loop_exhaustion_witness : run (fun _ => true) [false, false] 0 = 0 :=
  C9_run_loop_exhaustion.2.2 (fun _ => true) [false, false] 0 rfl

/-! Claim C10.  Constructor and set_blur_size defaults of the blur
parameters. -/

/-- Claim C10: after construction (or a configuration without a blur key)
blur is on with a 2 by 2 kernel; set_blur_size enables blur with a value
by value kernel exactly for positive values and otherwise disables blur
leaving the stored kernel size unchanged. -/
theorem C10_blur_defaults :
    (DifferenceDetector2D.init.blur_on = true ∧ DifferenceDetector2D.init.blur_size = 2) ∧
    (∀ (v : Int) (s : DifferenceDetector2D), 0 < v →
      DifferenceDetector2D.set_blur_size v s = { s with blur_on := true, blur_size := v }) ∧
    (∀ (v : Int) (s : DifferenceDetector2D), v ≤ 0 →
      DifferenceDetector2D.set_blur_size v s = { s with blur_on := false }) ∧
    (∀ (c : DifferenceDetector2D.Config) (s s2 : DifferenceDetector2D), c.blur = none →
      DifferenceDetector2D.configure (some c) s = Except.ok s2 →
      s2.blur_on = s.blur_on ∧ s2.blur_size = s.blur_size) := by
  refine ⟨by constructor <;> rfl, ?_, ?_, ?_⟩
  · intro v s hv
    simp [DifferenceDetector2D.set_blur_size, hv]
  · intro v s hv
    have : ¬ 0 < v := by omega
    simp [DifferenceDetector2D.set_blur_size, this]
  · intro c s s2 hb hok
    simp only [DifferenceDetector2D.configure, DifferenceDetector2D.configureBlur, hb] at hok
    cases hd : c.diff_threshold with
    | none =>
      simp only [DifferenceDetector2D.configureDiff, hd, Except.ok.injEq] at hok
      subst hok
      cases ht : c.tune with
      | none => simp [DifferenceDetector2D.configureTune, ht]
      | some b => cases b <;> simp [DifferenceDetector2D.configureTune, ht]
    | some t =>
      simp only [DifferenceDetector2D.configureDiff, hd] at hok
      by_cases hneg : t < 0
      · simp [hneg] at hok
      · simp only [hneg, if_false, Except.ok.injEq] at hok
        subst hok
        cases ht : c.tune with
        | none => simp [DifferenceDetector2D.configureTune, ht]
        | some b => cases b <;> simp [DifferenceDetector2D.configureTune, ht]

/-- Witness for C10: the clauses evaluated at concrete arguments. -/
theorem C10_blur_defaults_witness :
    DifferenceDetector2D.set_blur_size 3 DifferenceDetector2D.init =
      { DifferenceDetector2D.init with blur_on := true, blur_size := 3 } :=
  C10_blur_defaults.2.1 3 DifferenceDetector2D.init (by decide)

/-! Claim C2.  The source intends both negative blur and negative
diff_threshold to be fatal at configure time (its own error message says
the blur value must be positive), but the blur guard tests the already
sanitized kernel height, which set_blur_size never leaves negative, so a
negative blur value is accepted silently and merely disables blur; only
the diff_threshold half of the claim matches the code. -/

/-- Claim C2 evaluated at the failing input: configure with blur equal to
minus one succeeds (returning the state with blur disabled and the kernel
size untouched), while configure with diff_threshold equal to minus one is
fatal as claimed. -/
theorem C2_configure_negative_values_eval :
    (DifferenceDetector2D.configure
        (some { blur := some (-1), diff_threshold := none, tune := none })
        DifferenceDetector2D.init
      = Except.ok (DifferenceDetector2D.set_blur_size (-1) DifferenceDetector2D.init)) ∧
    ((DifferenceDetector2D.set_blur_size (-1) DifferenceDetector2D.init).blur_on = false) ∧
    ((DifferenceDetector2D.set_blur_size (-1) DifferenceDetector2D.init).blur_size = 2) ∧
    (DifferenceDetector2D.configure
        (some { blur := none, diff_threshold := some (-1), tune := none })
        DifferenceDetector2D.init
      = Except.error ()) := by
  refine ⟨rfl, rfl, rfl, rfl⟩

/-! Claim C4.  The source intends a failed background-image load to fall
back to the first-frame policy (its catch block even prints that message),
but cv::imread reports failure by returning an empty matrix rather than
throwing, so configure installs the empty image with background_set true:
the first frame never becomes the background and, the sizes never
matching, every frame passes through unshifted. -/

/-- Claim C4 evaluated at the failing input: configure with a table
present and an unreadable background file leaves background_set true with
an empty background image, after which a frame passes through unchanged
and is not adopted as the background. -/
theorem C4_background_load_failure_eval :
    (BackgroundSubtractor.configure true none
        { background_img := [], background_set := false }
      = Except.ok { background_img := [], background_set := true }) ∧
    ((BackgroundSubtractor.filter { background_img := [], background_set := true }
        [[(1, 2, 3)]]).1 = [[(1, 2, 3)]]) ∧
    ((BackgroundSubtractor.filter { background_img := [], background_set := true }
        [[(1, 2, 3)]]).2 = { background_img := [], background_set := true }) := by
  refine ⟨rfl, by decide, by decide⟩

/-! Claim C5.  First-frame adoption and saturating subtraction of the
background filter. -/

/-- Claim C5: with no background set the frame is returned unchanged and a
copy becomes the background; with one set (and frames of the pipeline
size) the output is the saturating per-pixel difference, pixelwise the
truncated subtraction of naturals which cannot wrap; and filtering a frame
identical to the stored background yields an all-zero image. -/
theorem C5_background_subtractor_filter (s : BackgroundSubtractor) (f : BGRImage) :
    (s.background_set = false →
      BackgroundSubtractor.filter s f =
        (f, { s with background_img := f, background_set := true })) ∧
    (s.background_set = true → sameDims f s.background_img = true →
      (BackgroundSubtractor.filter s f).1 = cvSubtract f s.background_img ∧
      ∀ r c, r < f.length → c < (f.getD r []).length →
        pxB (cvSubtract f s.background_img) r c =
          subPix (pxB f r c) (pxB s.background_img r c)) ∧
    (s.background_set = true →
      ∀ row ∈ (BackgroundSubtractor.filter s s.background_img).1,
        ∀ p ∈ row, p = (0, 0, 0)) := by
  refine ⟨?_, ?_, ?_⟩
  · intro h
    simp [BackgroundSubtractor.filter, BackgroundSubtractor.setBackgroundImage, h]
  · intro hset hdim
    constructor
    · simp [BackgroundSubtractor.filter, hset, hdim]
    · intro r c hr hc
      rcases sameDims_spec hdim with ⟨hlen, hrow⟩
      unfold pxB cvSubtract
      rw [getD_zipWith (List.zipWith subPix) f s.background_img r [] [] [] hr (hlen ▸ hr),
        getD_zipWith subPix _ _ c (0, 0, 0) (0, 0, 0) (0, 0, 0) hc (hrow r hr ▸ hc)]
  · intro hset
    have : (BackgroundSubtractor.filter s s.background_img).1 =
        cvSubtract s.background_img s.background_img := by
      simp [BackgroundSubtractor.filter, hset, sameDims_self]
    rw [this]
    exact cvSubtract_self_zero s.background_img

/-- Witness for C5: the first-frame clause evaluated on a fresh filter
with a concrete frame. -/
theorem C5_background_subtractor_filter_witness :
    BackgroundSubtractor.filter { background_img := [], background_set := false } [[(9, 9, 9)]]
      = ([[(9, 9, 9)]], { background_img := [[(9, 9, 9)]], background_set := true }) :=
  (C5_background_subtractor_filter
    { background_img := [], background_set := false } [[(9, 9, 9)]]).1 rfl

/-! Claim C1.  The first detectPosition call stores the grayscale frame as
history, but it does not skip the contour sift: siftBlobs runs on the
threshold image, which at that point is the grayscale frame itself, so the
validity of the first reported position depends on the frame contents and
is false exactly when the grayscale frame has no contours (in particular
for an all-black frame). -/

/-- Claim C1 counterexample: on an all-white first frame the very first
detectPosition call reports a valid position, not the claimed
unconditional invalid one. -/
theorem C1_first_call_counterexample :
    (DifferenceDetector2D.detectPosition DifferenceDetector2D.init
      [[(255, 255, 255), (255, 255, 255)], [(255, 255, 255), (255, 255, 255)]]
    ).1.position_valid = true := by decide

/-- Claim C1 as amended: the first call stores the grayscale conversion of
the frame as the history frame and raises the history flag, but the
reported validity is true exactly when contour extraction on that
grayscale frame finds a contour; an all-zero grayscale frame is reported
invalid. -/
theorem C1_first_call_behaviour (f : BGRImage) :
    ((DifferenceDetector2D.detectPosition DifferenceDetector2D.init f).2.last_image
        = grayImg f) ∧
    ((DifferenceDetector2D.detectPosition DifferenceDetector2D.init f).2.last_image_set
        = true) ∧
    (((DifferenceDetector2D.detectPosition DifferenceDetector2D.init f).1.position_valid
        = true) ↔ externalContours (grayImg f) ≠ []) ∧
    ((∀ row ∈ grayImg f, ∀ v ∈ row, v = 0) →
      (DifferenceDetector2D.detectPosition DifferenceDetector2D.init f).1.position_valid
        = false) := by
  have hinit : DifferenceDetector2D.init.last_image_set = false := rfl
  by_cases h : externalContours (grayImg f) = []
  · simp [DifferenceDetector2D.detectPosition, DifferenceDetector2D.applyThreshold,
      DifferenceDetector2D.siftBlobs, hinit, h]
  · simp only [DifferenceDetector2D.detectPosition, DifferenceDetector2D.applyThreshold,
      DifferenceDetector2D.siftBlobs, hinit, if_false, Bool.false_eq_true]
    simp only [List.isEmpty_eq_true, h, if_false]
    refine ⟨trivial, trivial, by simp [h], ?_⟩
    intro hz
    exact absurd (externalContours_of_allZero hz) h

/-- Witness for C1: the amended statement applied to an all-black frame,
whose grayscale conversion is all-zero, giving the invalid first report. -/
theorem C1_first_call_witness :
    (DifferenceDetector2D.detectPosition DifferenceDetector2D.init
      [[(0, 0, 0)]]).1.position_valid = false :=
  (C1_first_call_behaviour [[(0, 0, 0)]]).2.2.2 (by decide)

/-! Claim C7.  The contour sift marks the position valid exactly when a
contour exists and then takes the bounding-rectangle center of the contour
at the END of the discovery list, not of the one with maximal area.  The
demonstration mask holds a 3 by 3 blob discovered first and a single
bottom-right pixel discovered last; the reported center is that of the
single pixel although its rectangle area (1) is smaller than that of the
first blob (9). -/

/-- A mask with a large early component and a small late one, used to
separate the selection by list position from a selection by area. -/
def demoMask : GrayImage :=
  [[255, 255, 255, 0, 0],
   [255, 255, 255, 0, 0],
   [255, 255, 255, 0, 0],
   [0, 0, 0, 0, 0],
   [0, 0, 0, 0, 255]]

/-- Claim C7: with at least one contour the sift reports valid with the
center of the bounding rectangle of the last discovered contour; with none
it reports invalid; and on the demonstration mask the selected contour is
the final single-pixel one, of strictly smaller bounding-rectangle area
than the first, so the reported center (9/2, 9/2) differs from the center
of the larger contour. -/
theorem C7_last_contour_selection :
    (∀ s : DifferenceDetector2D, externalContours s.threshold_image ≠ [] →
      (DifferenceDetector2D.siftBlobs s).object_position =
        { x := rectCenterX (boundingRect ((externalContours s.threshold_image).getLastD [])),
          y := rectCenterY (boundingRect ((externalContours s.threshold_image).getLastD [])),
          position_valid := true }) ∧
    (∀ s : DifferenceDetector2D, externalContours s.threshold_image = [] →
      (DifferenceDetector2D.siftBlobs s).object_position.position_valid = false) ∧
    ((externalContours demoMask).length = 2) ∧
    (boundingRect ((externalContours demoMask).getLastD []) =
      { x := 4, y := 4, w := 1, h := 1 }) ∧
    (boundingRect ((externalContours demoMask).headD []) =
      { x := 0, y := 0, w := 3, h := 3 }) ∧
    ((boundingRect ((externalContours demoMask).getLastD [])).w *
        (boundingRect ((externalContours demoMask).getLastD [])).h <
      (boundingRect ((externalContours demoMask).headD [])).w *
        (boundingRect ((externalContours demoMask).headD [])).h) ∧
    ((DifferenceDetector2D.siftBlobs
        { DifferenceDetector2D.init with threshold_image := demoMask }).object_position =
      { x := 9 / 2, y := 9 / 2, position_valid := true }) ∧
    (rectCenterX (boundingRect ((externalContours demoMask).headD [])) ≠ 9 / 2) := by
  have h1 : ∀ s : DifferenceDetector2D, externalContours s.threshold_image ≠ [] →
      (DifferenceDetector2D.siftBlobs s).object_position =
        { x := rectCenterX (boundingRect ((externalContours s.threshold_image).getLastD [])),
          y := rectCenterY (boundingRect ((externalContours s.threshold_image).getLastD [])),
          position_valid := true } := by
    intro s h
    cases hc : externalContours s.threshold_image with
    | nil => exact absurd hc h
    | cons a as =>
      simp [DifferenceDetector2D.siftBlobs, hc]
  have hcs : externalContours demoMask =
      [[(0, 0), (1, 0), (2, 0), (1, 1), (0, 1), (0, 2), (1, 2), (2, 1), (2, 2)],
       [(4, 4)]] := by decide
  have hne : externalContours demoMask ≠ [] := by rw [hcs]; simp
  have hrect : boundingRect ((externalContours demoMask).getLastD []) =
      { x := 4, y := 4, w := 1, h := 1 } := by rw [hcs]; decide
  have hrecthead : boundingRect ((externalContours demoMask).headD []) =
      { x := 0, y := 0, w := 3, h := 3 } := by rw [hcs]; decide
  have hdemo0 : (DifferenceDetector2D.siftBlobs
      { DifferenceDetector2D.init with threshold_image := demoMask }).object_position =
        { x := rectCenterX (boundingRect ((externalContours demoMask).getLastD [])),
          y := rectCenterY (boundingRect ((externalContours demoMask).getLastD [])),
          position_valid := true } :=
    h1 { DifferenceDetector2D.init with threshold_image := demoMask } hne
  rw [hrect] at hdemo0
  refine ⟨h1, ?_, by rw [hcs]; rfl, hrect, hrecthead, ?_, ?_, ?_⟩
  · intro s h
    simp [DifferenceDetector2D.siftBlobs, h]
  · rw [hrect, hrecthead]
    norm_num
  · rw [hdemo0]
    norm_num [rectCenterX, rectCenterY, Position2D.mk.injEq]
  · rw [hrecthead]
    norm_num [rectCenterX]

/-- Witness for C7: the last-contour clause applied to the demonstration
state. -/
theorem C7_last_contour_selection_witness :
    (DifferenceDetector2D.siftBlobs
        { DifferenceDetector2D.init with threshold_image := demoMask }).object_position =
      { x := rectCenterX (boundingRect ((externalContours demoMask).getLastD [])),
        y := rectCenterY (boundingRect ((externalContours demoMask).getLastD [])),
        position_valid := true } :=
  C7_last_contour_selection.1
    { DifferenceDetector2D.init with threshold_image := demoMask } (by decide)



/-! Claim C6.  On invocations with history available the source mask
pipeline (which always thresholds twice) computes exactly the mask the
spec describes (threshold once, and re-threshold only after a blur pass),
and the history is replaced by the current grayscale frame. -/

/-- Claim C6: with history available and 8-bit frames, the threshold image
produced by applyThreshold equals the spec-worded pipeline (grayscale,
absolute difference, threshold, and re-threshold only after an enabled
blur), and the stored history becomes the current grayscale frame. -/
theorem C6_subsequent_invocation_pipeline (s : DifferenceDetector2D) (f : BGRImage)
    (hset : s.last_image_set = true) (hf : Valid8C f) (hl : Valid8 s.last_image) :
    ((DifferenceDetector2D.applyThreshold s f).threshold_image =
      DifferenceDetector2D.specDetectMask s f) ∧
    ((DifferenceDetector2D.applyThreshold s f).last_image = grayImg f) ∧
    ((DifferenceDetector2D.applyThreshold s f).last_image_set = true) := by
  have hd : Valid8 (cvAbsdiff (grayImg f) s.last_image) :=
    valid8_cvAbsdiff (valid8_grayImg hf) hl
  by_cases hb : s.blur_on
  · simp [DifferenceDetector2D.applyThreshold, DifferenceDetector2D.specDetectMask, hset, hb]
  · simp [DifferenceDetector2D.applyThreshold, DifferenceDetector2D.specDetectMask, hset, hb,
      cvThreshold_idem _ _ hd]

/-- Witness for C6: the pipeline agreement evaluated on a concrete
one-pixel frame against a concrete history. -/
theorem C6_subsequent_invocation_pipeline_witness :
    ((DifferenceDetector2D.applyThreshold
        { last_image := [[0]], last_image_set := true, threshold_image := [],
          object_position := { x := 0, y := 0, position_valid := false },
          blur_on := false, blur_size := 2,
          difference_intensity_threshold := 10, tuning_on := false }
        [[(100, 100, 100)]]).threshold_image =
      DifferenceDetector2D.specDetectMask
        { last_image := [[0]], last_image_set := true, threshold_image := [],
          object_position := { x := 0, y := 0, position_valid := false },
          blur_on := false, blur_size := 2,
          difference_intensity_threshold := 10, tuning_on := false }
        [[(100, 100, 100)]]) ∧
    ((DifferenceDetector2D.applyThreshold
        { last_image := [[0]], last_image_set := true, threshold_image := [],
          object_position := { x := 0, y := 0, position_valid := false },
          blur_on := false, blur_size := 2,
          difference_intensity_threshold := 10, tuning_on := false }
        [[(100, 100, 100)]]).last_image = grayImg [[(100, 100, 100)]]) ∧
    ((DifferenceDetector2D.applyThreshold
        { last_image := [[0]], last_image_set := true, threshold_image := [],
          object_position := { x := 0, y := 0, position_valid := false },
          blur_on := false, blur_size := 2,
          difference_intensity_threshold := 10, tuning_on := false }
        [[(100, 100, 100)]]).last_image_set = true) :=
  C6_subsequent_invocation_pipeline _ _ rfl (by decide) (by decide)

/-! Claim C8.  The foreground of the binary mask is antitone in the
difference threshold, for a fixed frame pair and a fixed blur setting. -/

theorem threshFun_ne_zero_iff (t : Int) (v : Nat) :
    threshFun t v ≠ 0 ↔ t < (v : Int) := by
  simp only [threshFun]
  split <;> simp_all

theorem threshFun_double_antitone {t1 t2 : Int} (h0 : 0 ≤ t1) (h12 : t1 ≤ t2) (v : Nat)
    (h : threshFun t2 (threshFun t2 v) ≠ 0) : threshFun t1 (threshFun t1 v) ≠ 0 := by
  rw [threshFun_ne_zero_iff] at h ⊢
  by_cases hv2 : t2 < (v : Int)
  · have hv1 : t1 < (v : Int) := lt_of_le_of_lt h12 hv2
    rw [show threshFun t1 v = 255 from by simp [threshFun, hv1]]
    rw [show threshFun t2 v = 255 from by simp [threshFun, hv2]] at h
    push_cast at h ⊢
    omega
  · rw [show threshFun t2 v = 0 from by simp [threshFun, hv2]] at h
    push_cast at h
    omega

/-- Claim C8: for a fixed frame, fixed history and fixed blur setting, a
pixel in the foreground of the mask computed at the larger threshold is in
the foreground of the mask computed at any smaller nonnegative threshold:
raising the threshold can only shrink the detected foreground. -/
theorem C8_threshold_antitone (s : DifferenceDetector2D) (f : BGRImage) (t1 t2 : Int)
    (r c : Nat) (hset : s.last_image_set = true) (h0 : 0 ≤ t1) (h12 : t1 ≤ t2)
    (h : px ((DifferenceDetector2D.applyThreshold
        { s with difference_intensity_threshold := t2 } f).threshold_image) r c ≠ 0) :
    px ((DifferenceDetector2D.applyThreshold
        { s with difference_intensity_threshold := t1 } f).threshold_image) r c ≠ 0 := by
  have h02 : (0 : Int) ≤ t2 := le_trans h0 h12
  have hmask : ∀ t : Int,
      (DifferenceDetector2D.applyThreshold
        { s with difference_intensity_threshold := t } f).threshold_image =
      cvThreshold t (if s.blur_on then
        cvBlur s.blur_size.toNat (cvThreshold t (cvAbsdiff (grayImg f) s.last_image))
        else cvThreshold t (cvAbsdiff (grayImg f) s.last_image)) := by
    intro t
    by_cases hb : s.blur_on <;>
      simp [DifferenceDetector2D.applyThreshold, hset, hb]
  rw [hmask t2] at h
  rw [hmask t1]
  set d := cvAbsdiff (grayImg f) s.last_image with hd
  by_cases hb : s.blur_on
  · rw [if_pos hb] at h ⊢
    have hMlen : (cvThreshold t2 d).length = (cvThreshold t1 d).length := by
      rw [length_cvThreshold, length_cvThreshold]
    have hMrows : ∀ rr, ((cvThreshold t2 d).getD rr []).length =
        ((cvThreshold t1 d).getD rr []).length := by
      intro rr
      rw [rows_cvThreshold, rows_cvThreshold, List.length_map, List.length_map]
    have hMle : ∀ rr cc, px (cvThreshold t2 d) rr cc ≤ px (cvThreshold t1 d) rr cc := by
      intro rr cc
      rw [px_cvThreshold t2 h02, px_cvThreshold t1 h0]
      exact threshFun_antitone h12 _
    have hble := cvBlur_mono s.blur_size.toNat _ _ hMlen hMrows hMle r c
    rw [px_cvThreshold t2 h02, threshFun_ne_zero_iff] at h
    rw [px_cvThreshold t1 h0, threshFun_ne_zero_iff]
    have hc : (px (cvBlur s.blur_size.toNat (cvThreshold t2 d)) r c : Int) ≤
        (px (cvBlur s.blur_size.toNat (cvThreshold t1 d)) r c : Int) := by
      exact_mod_cast hble
    omega
  · rw [if_neg hb] at h ⊢
    rw [px_cvThreshold t2 h02, px_cvThreshold t2 h02] at h
    rw [px_cvThreshold t1 h0, px_cvThreshold t1 h0]
    exact threshFun_double_antitone h0 h12 _ h

/-- Witness for C8: the antitone step on a one-pixel frame whose grayscale
difference against the history is 30, from threshold 10 down to 0. -/
theorem C8_threshold_antitone_witness :
    px ((DifferenceDetector2D.applyThreshold
        { last_image := [[0]], last_image_set := true, threshold_image := [],
          object_position := { x := 0, y := 0, position_valid := false },
          blur_on := false, blur_size := 2, difference_intensity_threshold := 0,
          tuning_on := false } [[(0, 0, 100)]]).threshold_image) 0 0 ≠ 0 := by
  have h := C8_threshold_antitone
    { last_image := [[0]], last_image_set := true, threshold_image := [],
      object_position := { x := 0, y := 0, position_valid := false },
      blur_on := false, blur_size := 2, difference_intensity_threshold := 0,
      tuning_on := false } [[(0, 0, 100)]] 0 10 0 0 rfl (by decide) (by decide) (by decide)
  exact h

/-! Claim C3.  The member writes of the iteration are ordered after the
fallible OpenCV calls of applyThreshold, so failures there leave the
position and the history untouched; but the history write precedes the
contour-extraction call, so a failure of that call leaves the already
replaced history in place.  The catch at the call site and the loop
continuation live in Detector2D::process, which is not among the sources
and is modelled from the spec. -/

theorem applyThresholdF_preserves (fl : CvFault) (s : DifferenceDetector2D) (f : BGRImage)
    (hset : s.last_image_set = true) :
    ((DifferenceDetector2D.applyThresholdF fl s f).2.object_position = s.object_position) ∧
    ((DifferenceDetector2D.applyThresholdF fl s f).2.last_image_set = true) ∧
    ((DifferenceDetector2D.applyThresholdF fl s f).1 = false →
      (DifferenceDetector2D.applyThresholdF fl s f).2.last_image = s.last_image) := by
  cases fl <;> by_cases hb : s.blur_on <;>
    simp [DifferenceDetector2D.applyThresholdF, hset, hb]

/-- Claim C3 counterexample: with history available, injecting a failure
into the contour-extraction call makes the iteration fail after the
history frame has already been replaced, so the cached history does not
remain unchanged on every mid-iteration image-processing failure. -/
theorem C3_history_update_counterexample :
    ((DifferenceDetector2D.detectPositionF CvFault.fFindContours
        { last_image := [[0]], last_image_set := true, threshold_image := [],
          object_position := { x := 0, y := 0, position_valid := false },
          blur_on := false, blur_size := 2, difference_intensity_threshold := 0,
          tuning_on := false } [[(255, 255, 255)]]).1 = none) ∧
    ((DifferenceDetector2D.detectPositionF CvFault.fFindContours
        { last_image := [[0]], last_image_set := true, threshold_image := [],
          object_position := { x := 0, y := 0, position_valid := false },
          blur_on := false, blur_size := 2, difference_intensity_threshold := 0,
          tuning_on := false } [[(255, 255, 255)]]).2.last_image ≠ [[0]]) := by
  refine ⟨rfl, by decide⟩

/-- Claim C3 as amended: with history available, a failing OpenCV call in
the iteration leaves the published output at the previous position and the
history flag raised; the history frame itself is unchanged whenever the
failure is not in the contour-extraction call (which runs after the
history write); and the spec-modelled process driver catches the failure,
republishes the previous position and does not signal exhaustion, so the
loop continues. -/
theorem C3_iteration_failure_fallback (fl : CvFault) (s : DifferenceDetector2D) (f : BGRImage)
    (hset : s.last_image_set = true)
    (hfail : (DifferenceDetector2D.detectPositionF fl s f).1 = none) :
    ((DifferenceDetector2D.detectPositionF fl s f).2.object_position = s.object_position) ∧
    ((DifferenceDetector2D.detectPositionF fl s f).2.last_image_set = true) ∧
    (fl ≠ CvFault.fFindContours →
      (DifferenceDetector2D.detectPositionF fl s f).2.last_image = s.last_image) ∧
    ((DifferenceDetector2D.processModel fl s f).2.1 = s.object_position) ∧
    ((DifferenceDetector2D.processModel fl s f).2.2 = false) := by
  obtain ⟨hop, hlis, hli⟩ := applyThresholdF_preserves fl s f hset
  rcases h1 : DifferenceDetector2D.applyThresholdF fl s f with ⟨ok, s1⟩
  rw [h1] at hop hlis hli
  dsimp only at hop hlis hli
  cases ok with
  | false =>
    have hdp : DifferenceDetector2D.detectPositionF fl s f = (none, s1) := by
      simp [DifferenceDetector2D.detectPositionF, h1]
    refine ⟨by simp [hdp, hop], by simp [hdp, hlis], ?_, ?_, ?_⟩
    · intro _
      simp [hdp]
      exact hli rfl
    · simp [DifferenceDetector2D.processModel, hdp]
    · simp [DifferenceDetector2D.processModel, hdp]
  | true =>
    by_cases hfc : fl = CvFault.fFindContours
    · subst hfc
      have hdp : DifferenceDetector2D.detectPositionF CvFault.fFindContours s f =
          (none, s1) := by
        simp [DifferenceDetector2D.detectPositionF, h1]
      refine ⟨by simp [hdp, hop], by simp [hdp, hlis], ?_, ?_, ?_⟩
      · intro hne
        exact absurd rfl hne
      · simp [DifferenceDetector2D.processModel, hdp]
      · simp [DifferenceDetector2D.processModel, hdp]
    · exfalso
      have hdp : (DifferenceDetector2D.detectPositionF fl s f).1 =
          some (DifferenceDetector2D.siftBlobs s1).object_position := by
        simp [DifferenceDetector2D.detectPositionF, h1, hfc]
      rw [hdp] at hfail
      exact Option.some_ne_none _ hfail

/-- Witness for C3: the amended fallback applied to a concrete failure of
the first threshold call on a one-pixel frame. -/
theorem C3_iteration_failure_fallback_witness :
    ((DifferenceDetector2D.detectPositionF CvFault.fThresh1
        { last_image := [[0]], last_image_set := true, threshold_image := [],
          object_position := { x := 0, y := 0, position_valid := false },
          blur_on := false, blur_size := 2, difference_intensity_threshold := 0,
          tuning_on := false } [[(255, 255, 255)]]).2.object_position =
      ({ last_image := [[0]], last_image_set := true, threshold_image := [],
          object_position := { x := 0, y := 0, position_valid := false },
          blur_on := false, blur_size := 2, difference_intensity_threshold := 0,
          tuning_on := false } : DifferenceDetector2D).object_position) ∧
    ((DifferenceDetector2D.detectPositionF CvFault.fThresh1
        { last_image := [[0]], last_image_set := true, threshold_image := [],
          object_position := { x := 0, y := 0, position_valid := false },
          blur_on := false, blur_size := 2, difference_intensity_threshold := 0,
          tuning_on := false } [[(255, 255, 255)]]).2.last_image_set = true) ∧
    (CvFault.fThresh1 ≠ CvFault.fFindContours →
      (DifferenceDetector2D.detectPositionF CvFault.fThresh1
        { last_image := [[0]], last_image_set := true, threshold_image := [],
          object_position := { x := 0, y := 0, position_valid := false },
          blur_on := false, blur_size := 2, difference_intensity_threshold := 0,
          tuning_on := false } [[(255, 255, 255)]]).2.last_image = [[0]]) ∧
    ((DifferenceDetector2D.processModel CvFault.fThresh1
        { last_image := [[0]], last_image_set := true, threshold_image := [],
          object_position := { x := 0, y := 0, position_valid := false },
          blur_on := false, blur_size := 2, difference_intensity_threshold := 0,
          tuning_on := false } [[(255, 255, 255)]]).2.1 =
      ({ last_image := [[0]], last_image_set := true, threshold_image := [],
          object_position := { x := 0, y := 0, position_valid := false },
          blur_on := false, blur_size := 2, difference_intensity_threshold := 0,
          tuning_on := false } : DifferenceDetector2D).object_position) ∧
    ((DifferenceDetector2D.processModel CvFault.fThresh1
        { last_image := [[0]], last_image_set := true, threshold_image := [],
          object_position := { x := 0, y := 0, position_valid := false },
          blur_on := false, blur_size := 2, difference_intensity_threshold := 0,
          tuning_on := false } [[(255, 255, 255)]]).2.2 = false) :=
  C3_iteration_failure_fallback CvFault.fThresh1
    { last_image := [[0]], last_image_set := true, threshold_image := [],
      object_position := { x := 0, y := 0, position_valid := false },
      blur_on := false, blur_size := 2, difference_intensity_threshold := 0,
      tuning_on := false } [[(255, 255, 255)]] rfl rfl

end Oat
